import Mathlib

/-!
Shallow embedding of `src/mcq/main.py` (Transgrade-MCQ): the result
normalizer (`extract_token_usage`, `serialize_crew_output`), the remote
gateway helpers (`save_mcq_result`, `update_existing_mcq_result`,
`check_existing_compare_text`), the reconciliation workflow
(`process_script_pages`, `run_mcq_pipeline`) and the HTTP route
(`run_pipeline_route`).

External effects (the Django HTTP API and the CrewAI pipeline) are modelled
by a `World` record that fixes the outcome of each external call; the
workflow functions thread it explicitly and additionally report an
`Effects` record saying which external writes were attempted and with which
payloads.
-/

/-- A Python value as far as this program inspects one: `None`, strings,
ints (token counts are non-negative), bools, and string-keyed dicts. -/
inductive PyVal where
  | none
  | str (s : String)
  | nat (n : Nat)
  | bool (b : Bool)
  | dict (entries : List (String × PyVal))

/-- Python truthiness (`if x:`) for the values above. -/
def pyTruthy : PyVal → Bool
  | PyVal.none => false
  | PyVal.str s => !s.isEmpty
  | PyVal.nat n => n != 0
  | PyVal.bool b => b
  | PyVal.dict d => !d.isEmpty

/-- `d.get(k, dflt)` on a dict modelled as an association list. -/
def dictGetD (d : List (String × PyVal)) (k : String) (dflt : PyVal) : PyVal :=
  match d.find? (fun p => p.1 == k) with
  | Option.some p => p.2
  | Option.none => dflt

/-- `k in d` on a dict modelled as an association list. -/
def dictHasKey (d : List (String × PyVal)) (k : String) : Bool :=
  (d.find? (fun p => p.1 == k)).isSome

/-- `x or y` (Python): `x` if truthy, else `y`. -/
def pyOr (a b : PyVal) : PyVal := if pyTruthy a then a else b

/-- A value usable as the right operand of `int + v` in Python:
ints add directly and bools count as 0/1; anything else raises `TypeError`
(modelled as `Option.none`). -/
def asAddable : PyVal → Option Nat
  | PyVal.nat n => Option.some n
  | PyVal.bool b => Option.some (if b then 1 else 0)
  | _ => Option.none

/-- One element of `crew_output.tasks_output`: may or may not carry a
`token_usage` attribute. -/
structure TaskOutput where
  token_usage : Option PyVal := Option.none

/-- The object held by a `crew` attribute: may or may not carry
`usage_metrics`. -/
structure CrewHolder where
  usage_metrics : Option PyVal := Option.none

/-- The opaque CrewAI pipeline output, modelled capability-style: each
attribute the source probes with `hasattr` is an `Option` (absent =
`Option.none`; present with Python value `v` = `Option.some v`).
`usage_u` models the `_usage` attribute. `to_dict` models the dict the
`to_dict()` method would return. `strRepr` is `str(crew_output)`, which
every Python object has. -/
structure CrewOutput where
  raw : Option PyVal := Option.none
  result : Option PyVal := Option.none
  to_dict : Option (List (String × PyVal)) := Option.none
  token_usage : Option PyVal := Option.none
  usage_metrics : Option PyVal := Option.none
  tasks_output : Option (List TaskOutput) := Option.none
  crew : Option CrewHolder := Option.none
  usage_u : Option PyVal := Option.none
  usage : Option PyVal := Option.none
  strRepr : String := "CrewOutput()"

/-- In Python every object inherits `__str__` from `object`, so
`hasattr(crew_output, '__str__')` is true for every value. -/
def hasattr_str (_ : CrewOutput) : Bool := true

/-- Method 4 of `extract_token_usage`: sum `total_tokens` /
`prompt_tokens` / `completion_tokens` over the tasks whose `token_usage`
is a dict. `Option.none` models the `TypeError` raised when a dict entry
is not a number (caught by the enclosing handler). -/
def sumTaskUsage (tasks : List TaskOutput) : Option (Nat × Nat × Nat) :=
  tasks.foldl
    (fun acc t =>
      match acc with
      | Option.none => Option.none
      | Option.some (tt, pt, ct) =>
        match t.token_usage with
        | Option.some (PyVal.dict d) =>
          match asAddable (dictGetD d "total_tokens" (PyVal.nat 0)),
                asAddable (dictGetD d "prompt_tokens" (PyVal.nat 0)),
                asAddable (dictGetD d "completion_tokens" (PyVal.nat 0)) with
          | Option.some a, Option.some b, Option.some c =>
            Option.some (tt + a, pt + b, ct + c)
          | _, _, _ => Option.none
        | _ => Option.some (tt, pt, ct))
    (Option.some (0, 0, 0))

/-- `extract_token_usage` (main.py lines 50-127): an `elif` chain keyed on
`hasattr`; the selected attribute's value is returned as-is (it may be
Python `None`). The trailing `if token_usage:` in the source only logs and
does not change the returned value. `PyVal.none` is Python `None`. -/
def extract_token_usage (c : CrewOutput) : PyVal :=
  -- Method 1: direct token_usage attribute
  if c.token_usage.isSome then
    c.token_usage.getD PyVal.none
  -- Method 2: usage_metrics attribute
  else if c.usage_metrics.isSome then
    c.usage_metrics.getD PyVal.none
  -- Method 3: keys of the to_dict() view
  else if c.to_dict.isSome then
    let result_dict := c.to_dict.getD []
    if dictHasKey result_dict "token_usage" then
      dictGetD result_dict "token_usage" PyVal.none
    else if dictHasKey result_dict "usage_metrics" then
      dictGetD result_dict "usage_metrics" PyVal.none
    else PyVal.none
  -- Method 4: per-task token usage, summed
  else if c.tasks_output.isSome then
    match sumTaskUsage (c.tasks_output.getD []) with
    | Option.none => PyVal.none   -- TypeError caught by the handler: return None
    | Option.some (tt, pt, ct) =>
      if tt > 0 then
        PyVal.dict [("total_tokens", PyVal.nat tt),
                    ("prompt_tokens", PyVal.nat pt),
                    ("completion_tokens", PyVal.nat ct)]
      else PyVal.none
  -- Method 5: crew.usage_metrics
  else if (c.crew.map (fun h => h.usage_metrics.isSome)).getD false then
    ((c.crew.getD {}).usage_metrics).getD PyVal.none
  -- Method 6: _usage, then usage
  else if c.usage_u.isSome then
    c.usage_u.getD PyVal.none
  else if c.usage.isSome then
    c.usage.getD PyVal.none
  else PyVal.none

/-- `serialize_crew_output` (main.py lines 129-149). The first branch
requires `raw` to be present AND truthy; because `hasattr(x, '__str__')`
is true for every Python object, the second branch fires whenever the
first does not, and the `result` / `to_dict` branches are unreachable.
The function is total (the source catches any exception and falls back to
`str(crew_output)`). -/
def serialize_crew_output (c : CrewOutput) : PyVal :=
  let _ := extract_token_usage c   -- called for logging by the source
  if pyTruthy (c.raw.getD PyVal.none) then c.raw.getD PyVal.none
  else if hasattr_str c then PyVal.str c.strRepr
  else if c.result.isSome then c.result.getD PyVal.none
  else if c.to_dict.isSome then PyVal.dict (c.to_dict.getD [])
  else PyVal.str c.strRepr

/-- One record of the OCR fetch result: `record.get('page_number')` and
`record.get('ocr_json')`, either possibly absent. -/
structure OcrRecord where
  page_number : Option Nat := Option.none
  ocr_json : Option PyVal := Option.none

/-- Sort key `lambda x: x.get('page_number', 0)`. -/
def pageKey (r : OcrRecord) : Nat := r.page_number.getD 0

/-- The comparison used by the workflow's stable sort. -/
def pageLE (a b : OcrRecord) : Prop := pageKey a ≤ pageKey b

instance : DecidableRel pageLE := fun a b => Nat.decLe (pageKey a) (pageKey b)

instance : IsTotal OcrRecord pageLE :=
  ⟨fun a b => Nat.le_total (pageKey a) (pageKey b)⟩

instance : IsTrans OcrRecord pageLE :=
  ⟨fun _ _ _ h1 h2 => Nat.le_trans h1 h2⟩

/-- `script_data.sort(key=lambda x: x.get('page_number', 0))`: Python's
sort is stable; insertion sort with `pageLE` (ties inserted after earlier
elements) computes the same stable ascending ordering. -/
def sortPages (l : List OcrRecord) : List OcrRecord :=
  List.insertionSort pageLE l

/-- `if not ocr_json: continue` — a record survives the filter iff its
`ocr_json` is present and truthy. -/
def validOcr (r : OcrRecord) : Bool := pyTruthy (r.ocr_json.getD PyVal.none)

/-- A CompareText record as returned by the remote store. -/
structure CompareRecord where
  compare_text_id : Nat
  script_id : Nat := 0
  vlmdesc : PyVal := PyVal.none
  restructured : PyVal := PyVal.none
  final_corrected_text : String := ""
  mcq : PyVal := PyVal.none

/-- Outcomes of the external calls a single workflow run can make:
the OCR fetch, the pipeline kickoff, the CompareText existence check,
the POST (create) and the PUT (update). `Except.error` carries the
exception message raised by the corresponding helper. -/
structure World where
  fetch : Except String (List OcrRecord)
  kickoff : Except String CrewOutput
  check : Except String (List CompareRecord)
  post : Except String PyVal
  put : Except String PyVal

/-- The JSON body of the POST issued by `save_mcq_result`. -/
structure CreatePayload where
  script_id : Nat
  vlmdesc : PyVal
  restructured : PyVal
  final_corrected_text : String
  mcq : PyVal

/-- The JSON body of the PUT issued by `update_existing_mcq_result`:
it carries only the record identifier and the new `mcq` value. -/
structure UpdatePayload where
  compare_text_id : Nat
  mcq : PyVal

/-- Which external effects a run performed. -/
structure Effects where
  fetchCalled : Bool := false
  pipelineInvoked : Bool := false
  checkCalled : Bool := false
  createPayload : Option CreatePayload := Option.none
  updatePayload : Option UpdatePayload := Option.none

/-- `check_existing_compare_text` (main.py lines 216-234): first element
of the response list, or `None`; every exception (HTTP or otherwise) is
swallowed and yields `None`. -/
def check_existing_compare_text (w : World) : Option CompareRecord :=
  match w.check with
  | Except.error _ => Option.none
  | Except.ok data =>
    match data with
    | [] => Option.none
    | r :: _ => Option.some r

/-- `save_mcq_result` (main.py lines 151-185): serializes the result,
builds the POST payload (with `vlmdesc or {}` / `restructured or {}`
defaults) and issues the write; returns the payload it sent together with
the outcome (the error string is the raised exception message). -/
def save_mcq_result (w : World) (script_id : Nat) (mcq_result : CrewOutput)
    (vlmdesc restructured : PyVal) (final_corrected_text : String) :
    CreatePayload × Except String PyVal :=
  let serialized_mcq_result := serialize_crew_output mcq_result
  let data : CreatePayload :=
    { script_id := script_id
      vlmdesc := pyOr vlmdesc (PyVal.dict [])
      restructured := pyOr restructured (PyVal.dict [])
      final_corrected_text := final_corrected_text
      mcq := serialized_mcq_result }
  match w.post with
  | Except.ok r => (data, Except.ok r)
  | Except.error e => (data, Except.error ("Failed to save MCQ result to database: " ++ e))

/-- `update_existing_mcq_result` (main.py lines 187-214): the PUT payload
contains only `compare_text_id` and the serialized `mcq`. -/
def update_existing_mcq_result (w : World) (compare_text_id : Nat)
    (mcq_result : CrewOutput) : UpdatePayload × Except String PyVal :=
  let data : UpdatePayload :=
    { compare_text_id := compare_text_id
      mcq := serialize_crew_output mcq_result }
  match w.put with
  | Except.ok r => (data, Except.ok r)
  | Except.error e => (data, Except.error ("Failed to update MCQ result in database: " ++ e))

/-- The dict returned by `process_script_pages`: the success variant has
`database_saved=True` and a `database_response`; the persistence-failure
variant has `database_saved=False` and a `database_error` instead. -/
structure ProcResult where
  mcq_result : PyVal
  token_usage : PyVal
  database_saved : Bool
  database_response : Option PyVal
  database_error : Option String

/-- `process_script_pages` (main.py lines 236-318): filter out records with
falsy `ocr_json` (raising if none remain — before the pipeline runs), run
the crew once on the whole batch, then check-and-upsert; a persistence
failure is caught and reported inside a successful return value. -/
def process_script_pages (w : World) (script_data : List OcrRecord)
    (script_id : Nat) : Except String ProcResult × Effects :=
  let all_pages_ocr := script_data.filter validOcr
  if all_pages_ocr.isEmpty then
    (Except.error "No valid OCR data found in any page", {})
  else
    match w.kickoff with
    | Except.error e =>
      (Except.error ("An error occurred while processing script pages: " ++ e),
       { pipelineInvoked := true })
    | Except.ok result =>
      let token_usage_info := extract_token_usage result
      match check_existing_compare_text w with
      | Option.some existing_record =>
        let pr := update_existing_mcq_result w existing_record.compare_text_id result
        (match pr.2 with
         | Except.ok db_result =>
           Except.ok { mcq_result := serialize_crew_output result
                       token_usage := token_usage_info
                       database_saved := true
                       database_response := Option.some db_result
                       database_error := Option.none }
         | Except.error db_error =>
           Except.ok { mcq_result := serialize_crew_output result
                       token_usage := token_usage_info
                       database_saved := false
                       database_response := Option.none
                       database_error := Option.some db_error },
         { pipelineInvoked := true, checkCalled := true,
           updatePayload := Option.some pr.1 })
      | Option.none =>
        let n := all_pages_ocr.length
        let pr := save_mcq_result w script_id result
          (PyVal.dict [("source", PyVal.str "MCQ processing"), ("pages", PyVal.nat n)])
          (PyVal.dict [("processed", PyVal.bool true), ("total_pages", PyVal.nat n)])
          ("MCQ processing completed for " ++ toString n ++ " pages")
        (match pr.2 with
         | Except.ok db_result =>
           Except.ok { mcq_result := serialize_crew_output result
                       token_usage := token_usage_info
                       database_saved := true
                       database_response := Option.some db_result
                       database_error := Option.none }
         | Except.error db_error =>
           Except.ok { mcq_result := serialize_crew_output result
                       token_usage := token_usage_info
                       database_saved := false
                       database_response := Option.none
                       database_error := Option.some db_error },
         { pipelineInvoked := true, checkCalled := true,
           createPayload := Option.some pr.1 })

/-- The `final_result` dict of `run_mcq_pipeline`. `pages_processed`
models `[record.get('page_number', 'Unknown') for record in script_data]`
(the 'Unknown' placeholder is `Option.none`). -/
structure FinalResult where
  script_id : Nat
  total_pages : Nat
  pages_processed : List (Option Nat)
  result : ProcResult

/-- The `(success, result_or_message)` pair returned by
`run_mcq_pipeline`. -/
inductive RunOutcome where
  | ok (r : FinalResult)
  | err (msg : String)

/-- `run_mcq_pipeline` (main.py lines 323-376): fetch, reject an empty
result, sort by page number, delegate to `process_script_pages`, and wrap
errors in the messages the source's handlers produce. -/
def run_mcq_pipeline (w : World) (script_id : Nat) : RunOutcome × Effects :=
  match w.fetch with
  | Except.error e =>
    (RunOutcome.err ("Error processing script ID " ++ toString script_id ++ ": " ++ e),
     { fetchCalled := true })
  | Except.ok script_data =>
    if script_data.isEmpty then
      (RunOutcome.err ("No OCR data found for script ID: " ++ toString script_id),
       { fetchCalled := true })
    else
      let sorted := sortPages script_data
      let page_numbers := sorted.map (fun r => r.page_number)
      match process_script_pages w sorted script_id with
      | (Except.error e, eff) =>
        (RunOutcome.err ("Error processing script pages: " ++ e),
         { eff with fetchCalled := true })
      | (Except.ok r, eff) =>
        (RunOutcome.ok { script_id := script_id
                         total_pages := sorted.length
                         pages_processed := page_numbers
                         result := r },
         { eff with fetchCalled := true })

/-- The JSON body + HTTP status produced by the route. -/
structure RouteResponse where
  http_status : Nat
  body_status : String
  message : String
  data : Option FinalResult
  token_usage : Option PyVal

/-- `run_pipeline_route` (main.py lines 400-435), the handler of
`GET /run/<int:script_id>`: `if not script_id:` rejects the integer `0`
with a 400 before anything runs; otherwise the workflow outcome is mapped
to a 200 (success, with `token_usage` included only when truthy) or a 500
(failure). -/
def run_pipeline_route (w : World) (script_id : Nat) : RouteResponse × Effects :=
  if script_id == 0 then
    ({ http_status := 400, body_status := "error",
       message := "Script ID is required",
       data := Option.none, token_usage := Option.none }, {})
  else
    match run_mcq_pipeline w script_id with
    | (RunOutcome.ok final, eff) =>
      let tu := final.result.token_usage
      ({ http_status := 200, body_status := "success",
         message := "MCQ processing completed successfully for script " ++ toString script_id,
         data := Option.some final,
         token_usage := if pyTruthy tu then Option.some tu else Option.none }, eff)
    | (RunOutcome.err m, eff) =>
      ({ http_status := 500, body_status := "error", message := m,
         data := Option.none, token_usage := Option.none }, eff)

/-- The POST payload `process_script_pages` builds in its create branch
(`n` is the number of valid pages). -/
def createdPayload (sid : Nat) (n : Nat) (res : CrewOutput) : CreatePayload :=
  { script_id := sid
    vlmdesc := PyVal.dict [("source", PyVal.str "MCQ processing"), ("pages", PyVal.nat n)]
    restructured := PyVal.dict [("processed", PyVal.bool true), ("total_pages", PyVal.nat n)]
    final_corrected_text := "MCQ processing completed for " ++ toString n ++ " pages"
    mcq := serialize_crew_output res }

/-! ## Concrete values used by counterexamples and witnesses -/

/-- A pipeline outcome exposing only a dictionary view (no raw text, no
result field). -/
def dictOnlyOutput : CrewOutput :=
  { to_dict := Option.some [("questions", PyVal.str "q1")] }

/-- A pipeline outcome with no recognized view whose textual rendering is
the empty string (e.g. the empty string used as a crew output). -/
def emptyStrOutput : CrewOutput := { strRepr := "" }

/-- Python `None` used as the crew output: no probed attribute exists. -/
def pyNoneOutput : CrewOutput := { strRepr := "None" }

/-- A pipeline outcome whose highest-priority usage shape (`token_usage`)
is present but holds Python `None`, while the next shape
(`usage_metrics`) holds a non-empty dict. -/
def usageEmptyFirst : CrewOutput :=
  { token_usage := Option.some PyVal.none
    usage_metrics := Option.some (PyVal.dict [("total_tokens", PyVal.nat 42)]) }

/-- A fetched record with a truthy `ocr_json`. -/
def okRecord : OcrRecord :=
  { page_number := Option.some 1, ocr_json := Option.some (PyVal.nat 1) }

/-- A fetched record lacking `ocr_json`. -/
def noJsonRecord : OcrRecord := { page_number := Option.some 1 }

/-- World: pipeline succeeds, no existing record, both writes fail. -/
def W1 : World :=
  { fetch := Except.ok [okRecord]
    kickoff := Except.ok {}
    check := Except.ok []
    post := Except.error "connection refused"
    put := Except.error "connection refused" }

/-- World: pipeline succeeds, an existing record is found, writes succeed. -/
def W4 : World :=
  { fetch := Except.ok [okRecord]
    kickoff := Except.ok {}
    check := Except.ok [{ compare_text_id := 11 }]
    post := Except.ok PyVal.none
    put := Except.ok PyVal.none }

/-- World: the only fetched record lacks `ocr_json`. -/
def W6 : World :=
  { fetch := Except.ok [noJsonRecord]
    kickoff := Except.ok {}
    check := Except.ok []
    post := Except.ok PyVal.none
    put := Except.ok PyVal.none }

/-- World: the existence check fails with an HTTP error. -/
def W8 : World :=
  { fetch := Except.ok [okRecord]
    kickoff := Except.ok {}
    check := Except.error "HTTP 502"
    post := Except.ok PyVal.none
    put := Except.ok PyVal.none }

/-! ## Helper lemmas -/

theorem isEmpty_false_of_ne_nil {α : Type} {l : List α} (h : l ≠ []) :
    l.isEmpty = false := by
  cases l with
  | nil => exact absurd rfl h
  | cons a as => rfl

theorem sortPages_perm (l : List OcrRecord) : List.Perm (sortPages l) l :=
  List.perm_insertionSort pageLE l

theorem sortPages_filter_perm (p : OcrRecord → Bool) (l : List OcrRecord) :
    List.Perm ((sortPages l).filter p) (l.filter p) :=
  (sortPages_perm l).filter p

theorem sortPages_filter_eq_nil (p : OcrRecord → Bool) (l : List OcrRecord)
    (h : ∀ r ∈ l, p r = false) : (sortPages l).filter p = [] := by
  have h2 : l.filter p = [] := List.filter_eq_nil_iff.mpr (by
    intro a ha
    simp [h a ha])
  have h3 := sortPages_filter_perm p l
  rw [h2] at h3
  exact h3.eq_nil

theorem sortPages_filter_ne_nil (p : OcrRecord → Bool) (l : List OcrRecord)
    (h : l.filter p ≠ []) : (sortPages l).filter p ≠ [] := by
  intro hc
  have h3 := sortPages_filter_perm p l
  rw [hc] at h3
  exact h (h3.symm.eq_nil)

/-- Inserting `a` does not change the subsequence of elements whose sort key
equals a fixed `k`, with `a` itself placed in front: the elements skipped by
`orderedInsert` all have keys strictly below `pageKey a`. -/
theorem filter_key_orderedInsert (k : Nat) (a : OcrRecord) (l : List OcrRecord) :
    (List.orderedInsert pageLE a l).filter (fun r => pageKey r == k) =
      (a :: l).filter (fun r => pageKey r == k) := by
  induction l with
  | nil => rfl
  | cons b bs ih =>
    by_cases h : pageLE a b
    · rw [List.orderedInsert_of_le pageLE bs h]
    · have hblt : pageKey b < pageKey a := Nat.lt_of_not_le h
      have hins : List.orderedInsert pageLE a (b :: bs) =
          b :: List.orderedInsert pageLE a bs := by
        simp [List.orderedInsert, h]
      rw [hins]
      simp only [List.filter_cons]
      rw [ih]
      simp only [List.filter_cons]
      by_cases hb : pageKey b = k
      · have ha : (pageKey a == k) = false := by
          subst hb
          exact beq_eq_false_iff_ne.mpr (Nat.ne_of_gt hblt)
        simp [hb, ha]
      · have hbf : (pageKey b == k) = false := beq_eq_false_iff_ne.mpr hb
        simp [hbf]

/-- Stability of the workflow's sort: for every key value `k`, the
subsequence of records whose `page_number` sorts as `k` is unchanged. -/
theorem sortPages_filter_key (l : List OcrRecord) (k : Nat) :
    (sortPages l).filter (fun r => pageKey r == k) =
      l.filter (fun r => pageKey r == k) := by
  induction l with
  | nil => rfl
  | cons a as ih =>
    have h1 : sortPages (a :: as) = List.orderedInsert pageLE a (sortPages as) := rfl
    rw [h1, filter_key_orderedInsert, List.filter_cons, List.filter_cons, ih]

theorem sortPages_sorted (l : List OcrRecord) : (sortPages l).Sorted pageLE :=
  List.sorted_insertionSort pageLE l

/-- `run_mcq_pipeline` on a non-empty fetch result reduces to
`process_script_pages` on the sorted records. -/
theorem run_eq_process (w : World) (sid : Nat) (data : List OcrRecord)
    (hf : w.fetch = Except.ok data) (hne : data ≠ []) :
    run_mcq_pipeline w sid =
      (match process_script_pages w (sortPages data) sid with
       | (Except.error e, eff) =>
         (RunOutcome.err ("Error processing script pages: " ++ e),
          { eff with fetchCalled := true })
       | (Except.ok r, eff) =>
         (RunOutcome.ok { script_id := sid
                          total_pages := (sortPages data).length
                          pages_processed := (sortPages data).map (fun r => r.page_number)
                          result := r },
          { eff with fetchCalled := true })) := by
  simp only [run_mcq_pipeline, hf, isEmpty_false_of_ne_nil hne, Bool.false_eq_true,
    if_false]

/-- `process_script_pages`, create branch, failing POST. -/
theorem process_create_fail (w : World) (sd : List OcrRecord) (sid : Nat)
    (res : CrewOutput) (e : String)
    (hval : sd.filter validOcr ≠ [])
    (hk : w.kickoff = Except.ok res)
    (hchk : check_existing_compare_text w = Option.none)
    (hpost : w.post = Except.error e) :
    process_script_pages w sd sid =
      (Except.ok { mcq_result := serialize_crew_output res
                   token_usage := extract_token_usage res
                   database_saved := false
                   database_response := Option.none
                   database_error :=
                     Option.some ("Failed to save MCQ result to database: " ++ e) },
       { pipelineInvoked := true, checkCalled := true,
         createPayload :=
           Option.some (createdPayload sid ((sd.filter validOcr).length) res) }) := by
  simp only [process_script_pages, isEmpty_false_of_ne_nil hval, Bool.false_eq_true,
    if_false, hk, hchk, save_mcq_result, hpost, createdPayload, pyOr, pyTruthy,
    List.isEmpty_cons, Bool.not_false, if_true]

/-- `process_script_pages`, create branch, successful POST. -/
theorem process_create_ok (w : World) (sd : List OcrRecord) (sid : Nat)
    (res : CrewOutput) (dbr : PyVal)
    (hval : sd.filter validOcr ≠ [])
    (hk : w.kickoff = Except.ok res)
    (hchk : check_existing_compare_text w = Option.none)
    (hpost : w.post = Except.ok dbr) :
    process_script_pages w sd sid =
      (Except.ok { mcq_result := serialize_crew_output res
                   token_usage := extract_token_usage res
                   database_saved := true
                   database_response := Option.some dbr
                   database_error := Option.none },
       { pipelineInvoked := true, checkCalled := true,
         createPayload :=
           Option.some (createdPayload sid ((sd.filter validOcr).length) res) }) := by
  simp only [process_script_pages, isEmpty_false_of_ne_nil hval, Bool.false_eq_true,
    if_false, hk, hchk, save_mcq_result, hpost, createdPayload, pyOr, pyTruthy,
    List.isEmpty_cons, Bool.not_false, if_true]

/-- `process_script_pages`, update branch, failing PUT. -/
theorem process_update_fail (w : World) (sd : List OcrRecord) (sid : Nat)
    (res : CrewOutput) (rec : CompareRecord) (e : String)
    (hval : sd.filter validOcr ≠ [])
    (hk : w.kickoff = Except.ok res)
    (hchk : check_existing_compare_text w = Option.some rec)
    (hput : w.put = Except.error e) :
    process_script_pages w sd sid =
      (Except.ok { mcq_result := serialize_crew_output res
                   token_usage := extract_token_usage res
                   database_saved := false
                   database_response := Option.none
                   database_error :=
                     Option.some ("Failed to update MCQ result in database: " ++ e) },
       { pipelineInvoked := true, checkCalled := true,
         updatePayload :=
           Option.some { compare_text_id := rec.compare_text_id
                         mcq := serialize_crew_output res } }) := by
  simp only [process_script_pages, isEmpty_false_of_ne_nil hval, Bool.false_eq_true,
    if_false, hk, hchk, update_existing_mcq_result, hput]

/-- `process_script_pages`, update branch, successful PUT. -/
theorem process_update_ok (w : World) (sd : List OcrRecord) (sid : Nat)
    (res : CrewOutput) (rec : CompareRecord) (dbr : PyVal)
    (hval : sd.filter validOcr ≠ [])
    (hk : w.kickoff = Except.ok res)
    (hchk : check_existing_compare_text w = Option.some rec)
    (hput : w.put = Except.ok dbr) :
    process_script_pages w sd sid =
      (Except.ok { mcq_result := serialize_crew_output res
                   token_usage := extract_token_usage res
                   database_saved := true
                   database_response := Option.some dbr
                   database_error := Option.none },
       { pipelineInvoked := true, checkCalled := true,
         updatePayload :=
           Option.some { compare_text_id := rec.compare_text_id
                         mcq := serialize_crew_output res } }) := by
  simp only [process_script_pages, isEmpty_false_of_ne_nil hval, Bool.false_eq_true,
    if_false, hk, hchk, update_existing_mcq_result, hput]

/-- `process_script_pages` with no valid page: a `NoDataError`-style
exception is raised before the pipeline, the check or any write. -/
theorem process_no_valid (w : World) (sd : List OcrRecord) (sid : Nat)
    (hval : sd.filter validOcr = []) :
    process_script_pages w sd sid =
      (Except.error "No valid OCR data found in any page", {}) := by
  simp only [process_script_pages, hval, List.isEmpty_nil, if_true]

/-! ## Claims -/

/-- Claim C10: a GET /run/0 request with the valid integer script id 0 is
rejected with HTTP 400 ("Script ID is required") without the workflow ever
running, because `if not script_id:` tests the id for truthiness and 0 is
falsy. -/
theorem c10_route_rejects_zero (w : World) :
    (run_pipeline_route w 0).1.http_status = 400 ∧
    (run_pipeline_route w 0).1.message = "Script ID is required" ∧
    (run_pipeline_route w 0).2.fetchCalled = false ∧
    (run_pipeline_route w 0).2.pipelineInvoked = false ∧
    (run_pipeline_route w 0).2.createPayload = Option.none ∧
    (run_pipeline_route w 0).2.updatePayload = Option.none :=
  ⟨rfl, rfl, rfl, rfl, rfl, rfl⟩

/-- Claim C9: on any input exposing none of the recognized usage shapes
(no `token_usage`, `usage_metrics`, `to_dict`, `tasks_output`,
`crew.usage_metrics`, `_usage` or `usage`), `extract_token_usage` returns
Python `None`; in particular this holds for the value `None` itself. The
model function is total, so no exception can escape (the source wraps the
probing in a catch-all handler returning `None`). -/
theorem c9_extract_absent :
    (∀ c : CrewOutput,
      c.token_usage = Option.none → c.usage_metrics = Option.none →
      c.to_dict = Option.none → c.tasks_output = Option.none →
      (c.crew.map (fun h => h.usage_metrics.isSome)).getD false = false →
      c.usage_u = Option.none → c.usage = Option.none →
      extract_token_usage c = PyVal.none) ∧
    extract_token_usage pyNoneOutput = PyVal.none := by
  constructor
  · intro c h1 h2 h3 h4 h5 h6 h7
    simp [extract_token_usage, h1, h2, h3, h4, h5, h6, h7]
  · rfl

theorem c9_witness : extract_token_usage pyNoneOutput = PyVal.none :=
  c9_extract_absent.1 pyNoneOutput rfl rfl rfl rfl rfl rfl rfl

/-- Claim C2, counterexample: on an input exposing only a dictionary view,
`serialize_crew_output` does NOT return that dictionary — it returns
`str(crew_output)`, because every Python object has `__str__` and that
branch precedes the dictionary branch; moreover on an input with no
recognized view whose textual rendering is empty, it returns the empty
string. -/
theorem c2_counterexample :
    (serialize_crew_output dictOnlyOutput = PyVal.str "CrewOutput()" ∧
     serialize_crew_output dictOnlyOutput ≠
       PyVal.dict [("questions", PyVal.str "q1")]) ∧
    serialize_crew_output emptyStrOutput = PyVal.str "" := by
  refine ⟨⟨rfl, ?_⟩, rfl⟩
  intro h
  exact PyVal.noConfusion
    (show PyVal.str "CrewOutput()" = PyVal.dict [("questions", PyVal.str "q1")] from h)

/-- Claim C2 (amended): whenever the `raw` view is absent or empty,
`serialize_crew_output` returns the textual rendering of the whole object
(possibly the empty string); the `result` and dictionary branches are
unreachable because every Python value has a textual rendering. The
function never raises (it is total). -/
theorem c2_serialize_textual (c : CrewOutput)
    (h : pyTruthy (c.raw.getD PyVal.none) = false) :
    serialize_crew_output c = PyVal.str c.strRepr := by
  simp [serialize_crew_output, h, hasattr_str]

theorem c2_witness :
    pyTruthy (dictOnlyOutput.raw.getD PyVal.none) = false ∧
    serialize_crew_output dictOnlyOutput = PyVal.str "CrewOutput()" :=
  ⟨rfl, c2_serialize_textual dictOnlyOutput rfl⟩

/-- Claim C3, counterexample: `extract_token_usage` selects shapes by
attribute PRESENCE, not by non-emptiness. Here the higher-priority
`token_usage` attribute is present but holds `None`, and the next shape
`usage_metrics` holds a non-empty dict; the function returns the empty
`None`, not the dict, contradicting "if a higher-priority shape is present
but empty, the value of the next matching shape is returned". -/
theorem c3_counterexample :
    extract_token_usage usageEmptyFirst = PyVal.none ∧
    extract_token_usage usageEmptyFirst ≠
      PyVal.dict [("total_tokens", PyVal.nat 42)] := by
  refine ⟨rfl, ?_⟩
  intro h
  exact PyVal.noConfusion
    (show PyVal.none = PyVal.dict [("total_tokens", PyVal.nat 42)] from h)

/-- Claim C3 (amended): `extract_token_usage` probes the shapes in the
fixed priority order, but keyed on attribute presence: it returns the
value of the first PRESENT shape even when that value is empty, and once
a shape is selected no later shape is consulted (e.g. a present `to_dict`
lacking both usage keys yields `None` without falling through). -/
theorem c3_extract_first_present :
    (∀ (c : CrewOutput) (v : PyVal),
        c.token_usage = Option.some v → extract_token_usage c = v) ∧
    (∀ (c : CrewOutput) (v : PyVal),
        c.token_usage = Option.none → c.usage_metrics = Option.some v →
        extract_token_usage c = v) ∧
    (∀ (c : CrewOutput) (d : List (String × PyVal)),
        c.token_usage = Option.none → c.usage_metrics = Option.none →
        c.to_dict = Option.some d →
        dictHasKey d "token_usage" = false →
        dictHasKey d "usage_metrics" = false →
        extract_token_usage c = PyVal.none) := by
  refine ⟨?_, ?_, ?_⟩
  · intro c v h
    simp [extract_token_usage, h]
  · intro c v h1 h2
    simp [extract_token_usage, h1, h2]
  · intro c d h1 h2 h3 h4 h5
    simp [extract_token_usage, h1, h2, h3, h4, h5]

theorem c3_witness :
    extract_token_usage { token_usage := Option.some (PyVal.nat 7) } = PyVal.nat 7 ∧
    extract_token_usage { usage_metrics := Option.some (PyVal.nat 9) } = PyVal.nat 9 ∧
    extract_token_usage { to_dict := Option.some [("x", PyVal.nat 1)] } = PyVal.none :=
  ⟨c3_extract_first_present.1 _ _ rfl,
   c3_extract_first_present.2.1 _ _ rfl rfl,
   c3_extract_first_present.2.2 _ _ rfl rfl rfl rfl rfl⟩

/-- Claim C7: the workflow orders fetched page records ascending by
`page_number` (missing numbers sort as 0) with a stable, total sort:
the sorted output is `Sorted pageLE`, records with equal `page_number`
keep their original relative order (the subsequence at each key value is
unchanged), and the concrete example [{3},{1},{2}] comes out [{1},{2},{3}]. -/
theorem c7_sort_stable_total :
    (∀ l : List OcrRecord, (sortPages l).Sorted pageLE) ∧
    (∀ (l : List OcrRecord) (k : Nat),
        (sortPages l).filter (fun r => pageKey r == k) =
          l.filter (fun r => pageKey r == k)) ∧
    sortPages [⟨Option.some 3, Option.none⟩, ⟨Option.some 1, Option.none⟩,
               ⟨Option.some 2, Option.none⟩] =
      [⟨Option.some 1, Option.none⟩, ⟨Option.some 2, Option.none⟩,
       ⟨Option.some 3, Option.none⟩] :=
  ⟨sortPages_sorted, sortPages_filter_key, rfl⟩

/-- Claim C6: on a non-empty fetch result in which every record lacks a
usable `ocr_json`, the workflow fails (the `NoDataError`-style exception
"No valid OCR data found in any page" surfaces as a workflow failure,
HTTP 500) with no pipeline invocation and no persistence write. -/
theorem c6_no_ocr_json_fails (w : World) (sid : Nat) (data : List OcrRecord)
    (hsid : sid ≠ 0)
    (hf : w.fetch = Except.ok data) (hne : data ≠ [])
    (hall : ∀ r ∈ data, validOcr r = false) :
    (run_mcq_pipeline w sid).1 =
      RunOutcome.err "Error processing script pages: No valid OCR data found in any page" ∧
    (run_mcq_pipeline w sid).2.pipelineInvoked = false ∧
    (run_mcq_pipeline w sid).2.createPayload = Option.none ∧
    (run_mcq_pipeline w sid).2.updatePayload = Option.none ∧
    (run_pipeline_route w sid).1.http_status = 500 := by
  have hfil : (sortPages data).filter validOcr = [] := sortPages_filter_eq_nil _ _ hall
  have hrun := run_eq_process w sid data hf hne
  rw [process_no_valid w (sortPages data) sid hfil] at hrun
  have hs0 : (sid == 0) = false := beq_eq_false_iff_ne.mpr hsid
  refine ⟨?_, ?_, ?_, ?_, ?_⟩
  · rw [hrun]
    rfl
  · rw [hrun]
  · rw [hrun]
  · rw [hrun]
  · simp only [run_pipeline_route, hs0, Bool.false_eq_true, if_false, hrun]

theorem c6_witness :
    (run_mcq_pipeline W6 3).1 =
      RunOutcome.err "Error processing script pages: No valid OCR data found in any page" ∧
    (run_mcq_pipeline W6 3).2.pipelineInvoked = false ∧
    (run_mcq_pipeline W6 3).2.createPayload = Option.none ∧
    (run_mcq_pipeline W6 3).2.updatePayload = Option.none ∧
    (run_pipeline_route W6 3).1.http_status = 500 :=
  c6_no_ocr_json_fails W6 3 [noJsonRecord] (by decide) rfl (by simp)
    (by intro r hr; rw [List.mem_singleton] at hr; subst hr; rfl)

/-- Claim C1: if the pipeline invocation succeeds, a failure of the
subsequent persistence write does not fail the workflow: the route still
returns HTTP 200 and a result with `database_saved = false` and a
populated `database_error`, whichever of the create / update writes was
attempted. -/
theorem c1_persistence_soft_fail (w : World) (sid : Nat) (data : List OcrRecord)
    (res : CrewOutput) (e1 e2 : String)
    (hsid : sid ≠ 0)
    (hf : w.fetch = Except.ok data) (hne : data ≠ [])
    (hval : data.filter validOcr ≠ [])
    (hk : w.kickoff = Except.ok res)
    (hpost : w.post = Except.error e1) (hput : w.put = Except.error e2) :
    (run_pipeline_route w sid).1.http_status = 200 ∧
    ∃ fr, (run_pipeline_route w sid).1.data = Option.some fr ∧
      fr.result.database_saved = false ∧
      fr.result.database_error.isSome = true := by
  have hvs : (sortPages data).filter validOcr ≠ [] := sortPages_filter_ne_nil _ _ hval
  have hrun := run_eq_process w sid data hf hne
  have hs0 : (sid == 0) = false := beq_eq_false_iff_ne.mpr hsid
  cases hc : check_existing_compare_text w with
  | none =>
    rw [process_create_fail w (sortPages data) sid res e1 hvs hk hc hpost] at hrun
    simp only [run_pipeline_route, hs0, Bool.false_eq_true, if_false, hrun]
    exact ⟨trivial, _, rfl, rfl, rfl⟩
  | some rec =>
    rw [process_update_fail w (sortPages data) sid res rec e2 hvs hk hc hput] at hrun
    simp only [run_pipeline_route, hs0, Bool.false_eq_true, if_false, hrun]
    exact ⟨trivial, _, rfl, rfl, rfl⟩

theorem c1_witness :
    (run_pipeline_route W1 7).1.http_status = 200 ∧
    ∃ fr, (run_pipeline_route W1 7).1.data = Option.some fr ∧
      fr.result.database_saved = false ∧
      fr.result.database_error.isSome = true :=
  c1_persistence_soft_fail W1 7 [okRecord] {} "connection refused" "connection refused"
    (by decide) rfl (by simp) (by simp [validOcr, okRecord, pyTruthy]) rfl rfl rfl

/-- Claim C4: when an existing CompareText record is found for the script,
the workflow performs an update, not a create: the PUT payload contains
only the record identifier and the new `mcq` value (the `UpdatePayload`
type has no other field, so `vlmdesc`, `restructured` and
`final_corrected_text` of the stored record are never mentioned), and no
create payload is issued. Holds whether the PUT succeeds or fails. -/
theorem c4_update_not_create (w : World) (sid : Nat) (data : List OcrRecord)
    (res : CrewOutput) (rec : CompareRecord) (rest : List CompareRecord)
    (hf : w.fetch = Except.ok data) (hne : data ≠ [])
    (hval : data.filter validOcr ≠ [])
    (hk : w.kickoff = Except.ok res)
    (hchk : w.check = Except.ok (rec :: rest)) :
    (run_mcq_pipeline w sid).2.updatePayload =
      Option.some { compare_text_id := rec.compare_text_id
                    mcq := serialize_crew_output res } ∧
    (run_mcq_pipeline w sid).2.createPayload = Option.none := by
  have hvs : (sortPages data).filter validOcr ≠ [] := sortPages_filter_ne_nil _ _ hval
  have hrun := run_eq_process w sid data hf hne
  have hcx : check_existing_compare_text w = Option.some rec := by
    simp [check_existing_compare_text, hchk]
  cases hput : w.put with
  | error e =>
    rw [process_update_fail w (sortPages data) sid res rec e hvs hk hcx hput] at hrun
    rw [hrun]
    exact ⟨rfl, rfl⟩
  | ok dbr =>
    rw [process_update_ok w (sortPages data) sid res rec dbr hvs hk hcx hput] at hrun
    rw [hrun]
    exact ⟨rfl, rfl⟩

theorem c4_witness :
    (run_mcq_pipeline W4 42).2.updatePayload =
      Option.some { compare_text_id := 11
                    mcq := serialize_crew_output {} } ∧
    (run_mcq_pipeline W4 42).2.createPayload = Option.none :=
  c4_update_not_create W4 42 [okRecord] {} { compare_text_id := 11 } [] rfl (by simp)
    (by simp [validOcr, okRecord, pyTruthy]) rfl rfl

/-- Claim C5: when no existing CompareText record is found, the workflow
performs a create whose payload carries the serialized mcq result, the
default `vlmdesc` dict, the default `restructured` marker dict, and the
synthesized `final_corrected_text` string, which contains the number of
processed (valid) pages. Holds whether the POST succeeds or fails. -/
theorem c5_create_branch (w : World) (sid : Nat) (data : List OcrRecord)
    (res : CrewOutput)
    (hf : w.fetch = Except.ok data) (hne : data ≠ [])
    (hval : data.filter validOcr ≠ [])
    (hk : w.kickoff = Except.ok res)
    (hchk : check_existing_compare_text w = Option.none) :
    (run_mcq_pipeline w sid).2.updatePayload = Option.none ∧
    ∃ p, (run_mcq_pipeline w sid).2.createPayload = Option.some p ∧
      p.script_id = sid ∧
      p.mcq = serialize_crew_output res ∧
      p.vlmdesc = PyVal.dict [("source", PyVal.str "MCQ processing"),
        ("pages", PyVal.nat (((sortPages data).filter validOcr).length))] ∧
      p.restructured = PyVal.dict [("processed", PyVal.bool true),
        ("total_pages", PyVal.nat (((sortPages data).filter validOcr).length))] ∧
      p.final_corrected_text =
        "MCQ processing completed for " ++
          toString (((sortPages data).filter validOcr).length) ++ " pages" ∧
      ∃ pre suf : String, p.final_corrected_text =
        pre ++ toString (((sortPages data).filter validOcr).length) ++ suf := by
  have hvs : (sortPages data).filter validOcr ≠ [] := sortPages_filter_ne_nil _ _ hval
  have hrun := run_eq_process w sid data hf hne
  cases hpost : w.post with
  | error e =>
    rw [process_create_fail w (sortPages data) sid res e hvs hk hchk hpost] at hrun
    rw [hrun]
    exact ⟨rfl, _, rfl, rfl, rfl, rfl, rfl, rfl,
      "MCQ processing completed for ", " pages", rfl⟩
  | ok dbr =>
    rw [process_create_ok w (sortPages data) sid res dbr hvs hk hchk hpost] at hrun
    rw [hrun]
    exact ⟨rfl, _, rfl, rfl, rfl, rfl, rfl, rfl,
      "MCQ processing completed for ", " pages", rfl⟩

theorem c5_witness :
    (run_mcq_pipeline W1 7).2.updatePayload = Option.none ∧
    ∃ p, (run_mcq_pipeline W1 7).2.createPayload = Option.some p ∧
      p.script_id = 7 ∧
      p.mcq = serialize_crew_output {} ∧
      p.vlmdesc = PyVal.dict [("source", PyVal.str "MCQ processing"),
        ("pages", PyVal.nat (((sortPages [okRecord]).filter validOcr).length))] ∧
      p.restructured = PyVal.dict [("processed", PyVal.bool true),
        ("total_pages", PyVal.nat (((sortPages [okRecord]).filter validOcr).length))] ∧
      p.final_corrected_text =
        "MCQ processing completed for " ++
          toString (((sortPages [okRecord]).filter validOcr).length) ++ " pages" ∧
      ∃ pre suf : String, p.final_corrected_text =
        pre ++ toString (((sortPages [okRecord]).filter validOcr).length) ++ suf :=
  c5_create_branch W1 7 [okRecord] {} rfl (by simp)
    (by simp [validOcr, okRecord, pyTruthy]) rfl rfl

/-- Claim C8: `check_existing_compare_text` returns the first record of
the lookup response or `None`; any lookup error is swallowed and treated
as "not found", after which the workflow takes the create branch and the
error is never surfaced as a workflow failure. -/
theorem c8_lookup_soft_fail :
    (∀ (w : World) (r : CompareRecord) (rest : List CompareRecord),
        w.check = Except.ok (r :: rest) →
        check_existing_compare_text w = Option.some r) ∧
    (∀ (w : World), w.check = Except.ok [] →
        check_existing_compare_text w = Option.none) ∧
    (∀ (w : World) (e : String), w.check = Except.error e →
        check_existing_compare_text w = Option.none) ∧
    (∀ (w : World) (sid : Nat) (data : List OcrRecord) (res : CrewOutput) (e : String),
        w.fetch = Except.ok data → data ≠ [] → data.filter validOcr ≠ [] →
        w.kickoff = Except.ok res → w.check = Except.error e →
        (run_mcq_pipeline w sid).2.createPayload.isSome = true ∧
        (run_mcq_pipeline w sid).2.updatePayload = Option.none ∧
        ∃ fr, (run_mcq_pipeline w sid).1 = RunOutcome.ok fr) := by
  refine ⟨?_, ?_, ?_, ?_⟩
  · intro w r rest h
    simp [check_existing_compare_text, h]
  · intro w h
    simp [check_existing_compare_text, h]
  · intro w e h
    simp [check_existing_compare_text, h]
  · intro w sid data res e hf hne hval hk hchk
    have hcx : check_existing_compare_text w = Option.none := by
      simp [check_existing_compare_text, hchk]
    have hvs : (sortPages data).filter validOcr ≠ [] := sortPages_filter_ne_nil _ _ hval
    have hrun := run_eq_process w sid data hf hne
    cases hpost : w.post with
    | error e2 =>
      rw [process_create_fail w (sortPages data) sid res e2 hvs hk hcx hpost] at hrun
      rw [hrun]
      exact ⟨rfl, rfl, _, rfl⟩
    | ok dbr =>
      rw [process_create_ok w (sortPages data) sid res dbr hvs hk hcx hpost] at hrun
      rw [hrun]
      exact ⟨rfl, rfl, _, rfl⟩

theorem c8_witness :
    check_existing_compare_text W4 = Option.some { compare_text_id := 11 } ∧
    check_existing_compare_text W1 = Option.none ∧
    check_existing_compare_text W8 = Option.none ∧
    ((run_mcq_pipeline W8 5).2.createPayload.isSome = true ∧
     (run_mcq_pipeline W8 5).2.updatePayload = Option.none ∧
     ∃ fr, (run_mcq_pipeline W8 5).1 = RunOutcome.ok fr) :=
  ⟨c8_lookup_soft_fail.1 W4 { compare_text_id := 11 } [] rfl,
   c8_lookup_soft_fail.2.1 W1 rfl,
   c8_lookup_soft_fail.2.2.1 W8 "HTTP 502" rfl,
   c8_lookup_soft_fail.2.2.2 W8 5 [okRecord] {} "HTTP 502" rfl (by simp)
     (by simp [validOcr, okRecord, pyTruthy]) rfl rfl⟩
